import Mathlib

/-
Verification of the task-tracking service in src/main.py (FastAPI TODO API
with a SQLite task store, an external-source importer and a periodic
background import loop) against its natural-language specification.

Shallow embedding notes:
- The SQLite table `tasks` (class TaskDB) is modelled as a list of rows plus
  the autoincrement counter for the next primary key.
- Async endpoints become pure functions from the store to a result and a new
  store; `raise HTTPException(404)` becomes `Except.error HTTPError.notFound`.
- Randomness (`random.randint`) and the network (`httpx`) are modelled as
  explicit inputs: a draw `r : Nat` and a `FetchOutcome` describing how the
  HTTP request turns out.
- The WebSocket/Event-Bus side of the repository is not under src/ (only its
  consumer src/client.py is); the publication step is modelled from the spec
  and clearly marked as such below.
-/

/-- Row of the `tasks` table (class TaskDB in src/main.py): integer primary
key, non-nullable title, nullable description, non-nullable completed. -/
structure TaskDB where
  id : Nat
  title : String
  description : Option String
  completed : Bool
deriving Repr, DecidableEq

/-- The SQLite database state: the rows of the `tasks` table in insertion
order, plus the autoincrement value the next INSERT will assign. -/
structure Store where
  tasks : List TaskDB
  nextId : Nat
deriving Repr, DecidableEq

/-- A fresh database (SQLite autoincrement starts at 1). -/
def Store.empty : Store := ⟨[], 1⟩

/-- Primary-key lookup, `session.get(TaskDB, task_id)`. -/
def Store.get (s : Store) (task_id : Nat) : Option TaskDB :=
  s.tasks.find? (fun t => t.id == task_id)

/-- `session.add(task); await session.commit(); await session.refresh(task)`:
insert a new row, letting the database assign the next id. -/
def Store.createTask (s : Store) (title : String) (description : Option String)
    (completed : Bool) : TaskDB × Store :=
  let task : TaskDB := ⟨s.nextId, title, description, completed⟩
  (task, ⟨s.tasks ++ [task], s.nextId + 1⟩)

/-- Well-formedness of the autoincrement store: every row's id is below the
next id to be assigned (true of every state reachable from Store.empty). -/
def Store.WF (s : Store) : Prop := ∀ t ∈ s.tasks, t.id < s.nextId

/-- Pydantic model TaskCreate (body of POST /tasks): required title, optional
description (default None), completed defaulting to False. -/
structure TaskCreate where
  title : String
  description : Option String := none
  completed : Bool := false
deriving Repr, DecidableEq

/-- Pydantic model TaskUpdate (body of PATCH /tasks/id). Each field is
`none` when the client did not supply it (pydantic's exclude_unset) and
`some v` when it supplied the value v; the nullable description column can be
explicitly set to NULL, hence the nested Option. -/
structure TaskUpdate where
  title : Option String := none
  description : Option (Option String) := none
  completed : Option Bool := none
deriving Repr, DecidableEq

/-- Kind of a task lifecycle event. -/
inductive EventKind
  | created
  | updated
  | deleted
deriving Repr, DecidableEq

/-- A task lifecycle event: kind, task identifier, and the task snapshot
(absent for deletions), as delivered to src/client.py over /ws/tasks. -/
structure Event where
  kind : EventKind
  task_id : Nat
  task : Option TaskDB
deriving Repr, DecidableEq

/-- The only structured client error raised by the CRUD handlers:
HTTPException(status_code=404, detail="Task not found"). -/
inductive HTTPError
  | notFound
deriving Repr, DecidableEq

/-- GET /tasks: `select(TaskDB).order_by(TaskDB.id)` — all rows, in ascending
order of id. -/
def get_tasks (s : Store) : List TaskDB :=
  List.insertionSort (fun a b => a.id ≤ b.id) s.tasks

/-- GET /tasks/id: primary-key lookup, 404 when absent. -/
def get_task (s : Store) (task_id : Nat) : Except HTTPError TaskDB :=
  match s.get task_id with
  | none => .error .notFound
  | some t => .ok t

/-- POST /tasks: build a TaskDB from the supplied fields and insert it. -/
def create_task (s : Store) (data : TaskCreate) : TaskDB × Store :=
  s.createTask data.title data.description data.completed

/-- The `for field, value in update_data.items(): setattr(task, field, value)`
loop: fields present in the request body overwrite the row's fields, the
others keep their values. -/
def applyUpdate (t : TaskDB) (u : TaskUpdate) : TaskDB :=
  { t with
    title := u.title.getD t.title
    description := u.description.getD t.description
    completed := u.completed.getD t.completed }

/-- PATCH /tasks/id: 404 when absent; otherwise apply the supplied fields to
the row and commit. -/
def update_task (s : Store) (task_id : Nat) (data : TaskUpdate) :
    Except HTTPError TaskDB × Store :=
  match s.get task_id with
  | none => (.error .notFound, s)
  | some t =>
    let t2 := applyUpdate t data
    (.ok t2, ⟨s.tasks.map (fun x => if x.id == task_id then t2 else x), s.nextId⟩)

/-- DELETE /tasks/id: 404 when absent; otherwise delete the row (the response
body is the constant {"status": "deleted"}, modelled as Unit). -/
def delete_task (s : Store) (task_id : Nat) : Except HTTPError Unit × Store :=
  match s.get task_id with
  | none => (.error .notFound, s)
  | some _ => (.ok (), ⟨s.tasks.filter (fun x => x.id != task_id), s.nextId⟩)

/-- The JSON object returned by the external catalog, with the three fields
the importer reads via `data.get`; each is `none` when missing from the
payload. -/
structure ExternalPayload where
  title : Option String := none
  completed : Option Bool := none
  id : Option Nat := none
deriving Repr, DecidableEq

/-- How the HTTP GET of one external todo turns out: a JSON payload, a
network-level failure (connection error or the 10-unit timeout expiring), or
a non-success HTTP status (raise_for_status). -/
inductive FetchOutcome
  | success (payload : ExternalPayload)
  | networkError
  | statusError
deriving Repr, DecidableEq

/-- Upstream failure as surfaced by the fetch (httpx.RequestError for network
problems and timeouts, httpx.HTTPStatusError from raise_for_status). -/
inductive UpstreamError
  | network
  | status
deriving Repr, DecidableEq

/-- The fixed httpx client timeout: `httpx.AsyncClient(timeout=10.0)`. -/
def REQUEST_TIMEOUT : Nat := 10

/-- Python's `random.randint(lo, hi)` (inclusive bounds), driven by an
explicit draw r. -/
def randint (lo hi r : Nat) : Nat := lo + r % (hi + 1 - lo)

/-- The id chosen by fetch_external_todo: `random.randint(1, 200)`. -/
def chosen_todo_id (r : Nat) : Nat := randint 1 200 r

/-- The request fetch_external_todo issues: GET of one record by numeric id,
with the client's fixed timeout. -/
structure HttpRequest where
  todo_id : Nat
  timeout : Nat
deriving Repr, DecidableEq

/-- fetch_external_todo: pick a random todo id from 1 to 200, GET it with a
10-unit timeout, raise for non-success status, return the JSON payload.
The issued request is returned alongside the outcome. -/
def fetch_external_todo (r : Nat) (net : FetchOutcome) :
    HttpRequest × Except UpstreamError ExternalPayload :=
  (⟨chosen_todo_id r, REQUEST_TIMEOUT⟩,
    match net with
    | .success p => .ok p
    | .networkError => .error .network
    | .statusError => .error .status)

/-- Python's string interpolation of the (possibly absent) remote id into
the f-string: a missing id prints as "None". -/
def remoteIdText : Option Nat → String
  | some n => toString n
  | none => "None"

/-- create_task_from_external: fetch one external todo and store it. Reads
title with default "Imported task", completed with default False, remote id
(possibly None), synthesizes the provenance description, inserts the row.
A fetch failure propagates before anything is written. -/
def create_task_from_external (r : Nat) (net : FetchOutcome) (s : Store) :
    Except UpstreamError TaskDB × Store :=
  match (fetch_external_todo r net).2 with
  | .error e => (.error e, s)
  | .ok data =>
    let title := data.title.getD "Imported task"
    let completed := data.completed.getD false
    let description := "Imported from JSONPlaceholder, remote_id=" ++
      remoteIdText data.id
    let (task, s2) := s.createTask title (some description) completed
    (.ok task, s2)

/-- String form of the swallowed exception, as interpolated into the
`print(f"[background] Error while importing task: {e}")` log line. -/
def upstreamErrorMessage : UpstreamError → String
  | .network => "network error"
  | .status => "non-success status"

/-- One iteration of the `while True` body of background_task_generator: run
the import in a fresh session; on success log the success line, on any
exception log the error line and continue; then sleep period_seconds.
Returns the new store, the log line, and the slept duration. -/
def background_cycle (r : Nat) (net : FetchOutcome) (s : Store)
    (period_seconds : Nat := 60) : Store × String × Nat :=
  match create_task_from_external r net s with
  | (.ok _, s2) =>
    (s2, "[background] Imported task from external API", period_seconds)
  | (.error e, s2) =>
    (s2, "[background] Error while importing task: " ++ upstreamErrorMessage e,
      period_seconds)

/-- background_task_generator, unrolled over a finite prefix of the infinite
loop: one (draw, network outcome) pair per cycle. Returns the final store
and the trace of (log line, slept duration) per executed cycle. -/
def background_task_generator (cycles : List (Nat × FetchOutcome)) (s : Store)
    (period_seconds : Nat := 60) : Store × List (String × Nat) :=
  match cycles with
  | [] => (s, [])
  | (r, net) :: rest =>
    let c := background_cycle r net s period_seconds
    let f := background_task_generator rest c.1 period_seconds
    (f.1, c.2 :: f.2)

/-- Modelled from the spec: the Event Bus publication attached to each
successful mutation. The server-side Event Bus and the /ws/tasks endpoint
that src/client.py connects to are not under src/; the spec requires that
"every successful store mutation (create/update/delete) that the core
handles MUST produce exactly one Event published to the Event Bus before the
mutation's result is returned to its caller". -/
def publishOne (kind : EventKind) (task_id : Nat) (task : Option TaskDB) :
    List Event :=
  [⟨kind, task_id, task⟩]

/-- Modelled from the spec: POST /tasks with its event publication — the
store insert is create_task from src/main.py; the single `created` Event
carrying the resulting snapshot follows the spec (the Event Bus code is not
under src/). -/
def create_task_endpoint (s : Store) (data : TaskCreate) :
    TaskDB × Store × List Event :=
  let c := create_task s data
  (c.1, c.2, publishOne .created c.1.id (some c.1))

/-- Modelled from the spec: PATCH /tasks/id with its event publication — the
store update is update_task from src/main.py; on success a single `updated`
Event carrying the resulting snapshot follows the spec. -/
def update_task_endpoint (s : Store) (task_id : Nat) (data : TaskUpdate) :
    Except HTTPError TaskDB × Store × List Event :=
  match update_task s task_id data with
  | (.ok t, s2) => (.ok t, s2, publishOne .updated t.id (some t))
  | (.error e, s2) => (.error e, s2, [])

/-- Modelled from the spec: DELETE /tasks/id with its event publication — the
store delete is delete_task from src/main.py; on success a single `deleted`
Event (no snapshot) follows the spec. -/
def delete_task_endpoint (s : Store) (task_id : Nat) :
    Except HTTPError Unit × Store × List Event :=
  match delete_task s task_id with
  | (.ok _, s2) => (.ok (), s2, publishOne .deleted task_id none)
  | (.error e, s2) => (.error e, s2, [])

/-- Modelled from the spec: the import operation (POST /task-generator/run
and the importer the spec calls importOne) with its event publication — the
fetch-and-store is create_task_from_external from src/main.py; on success a
single `created` Event carrying the created Task follows the spec. -/
def run_task_generator (r : Nat) (net : FetchOutcome) (s : Store) :
    Except UpstreamError TaskDB × Store × List Event :=
  match create_task_from_external r net s with
  | (.ok t, s2) => (.ok t, s2, publishOne .created t.id (some t))
  | (.error e, s2) => (.error e, s2, [])

/-
Helper lemmas shared by the claim theorems.
-/

/-- Looking up by id after replacing the matching row finds the replacement. -/
theorem find?_replace (l : List TaskDB) (i : Nat) (t t2 : TaskDB)
    (h : l.find? (fun x => x.id == i) = some t) (hid : t2.id = i) :
    (l.map (fun x => if x.id == i then t2 else x)).find? (fun x => x.id == i)
      = some t2 := by
  induction l with
  | nil => simp at h
  | cons a as ih =>
    by_cases ha : a.id = i
    · simp [List.find?, ha, hid]
    · have ha2 : (a.id == i) = false := by simp [ha]
      simp only [List.map_cons, List.find?] at h ⊢
      rw [ha2] at h
      rw [if_neg (by simp [ha]), ha2]
      exact ih h

/-- Looking up a freshly appended row whose id is larger than every existing
row's id finds exactly that row. -/
theorem find?_append_fresh (l : List TaskDB) (n : Nat) (t : TaskDB)
    (hl : ∀ x ∈ l, x.id < n) (ht : t.id = n) :
    (l ++ [t]).find? (fun x => x.id == n) = some t := by
  induction l with
  | nil => simp [List.find?, ht]
  | cons a as ih =>
    have ha : a.id ≠ n := Nat.ne_of_lt (hl a (by simp))
    have ha2 : (a.id == n) = false := by simp [ha]
    simp only [List.cons_append, List.find?]
    rw [ha2]
    exact ih (fun x hx => hl x (by simp [hx]))

/-- The unrolled background loop executes every cycle: its trace has one
entry per cycle, failures included. -/
theorem bg_trace_length (cycles : List (Nat × FetchOutcome)) (s : Store)
    (p : Nat) :
    (background_task_generator cycles s p).2.length = cycles.length := by
  induction cycles generalizing s with
  | nil => rfl
  | cons c rest ih =>
    obtain ⟨r, net⟩ := c
    simp [background_task_generator, ih]

/-- Every entry of the background loop's trace records a sleep of exactly
the configured period. -/
theorem bg_trace_sleep (cycles : List (Nat × FetchOutcome)) (s : Store)
    (p : Nat) :
    ∀ q ∈ (background_task_generator cycles s p).2, q.2 = p := by
  induction cycles generalizing s with
  | nil => intro q hq; simp [background_task_generator] at hq
  | cons c rest ih =>
    obtain ⟨r, net⟩ := c
    intro q hq
    simp only [background_task_generator, List.mem_cons] at hq
    rcases hq with hq | hq
    · subst hq
      cases hnet : create_task_from_external r net s with
      | mk res s2 => cases res <;> simp [background_cycle, hnet]
    · exact ih _ q hq

/-- C10: GET /tasks returns every stored task exactly once — the result is a
permutation of the stored rows, so each row's multiplicity is preserved —
sorted in ascending order of task identifier, regardless of insertion
order. -/
theorem get_tasks_sorted_perm (s : Store) :
    (get_tasks s).Perm s.tasks
  ∧ List.Sorted (fun a b => a.id ≤ b.id) (get_tasks s)
  ∧ ∀ t : TaskDB, (get_tasks s).count t = s.tasks.count t := by
  haveI : IsTotal TaskDB (fun a b => a.id ≤ b.id) :=
    ⟨fun a b => Nat.le_total a.id b.id⟩
  haveI : IsTrans TaskDB (fun a b => a.id ≤ b.id) :=
    ⟨fun _ _ _ hab hbc => Nat.le_trans hab hbc⟩
  refine ⟨List.perm_insertionSort _ _, List.sorted_insertionSort _ _, ?_⟩
  intro t
  exact (List.perm_insertionSort _ s.tasks).count_eq t

/-- C8: for a task identifier absent from the store, GET-one, PATCH and
DELETE each fail with the 404 not-found error and leave the store
unchanged. -/
theorem missing_id_not_found (s : Store) (task_id : Nat) (u : TaskUpdate)
    (h : s.get task_id = none) :
    get_task s task_id = .error .notFound
  ∧ update_task s task_id u = (.error .notFound, s)
  ∧ delete_task s task_id = (.error .notFound, s) := by
  refine ⟨?_, ?_, ?_⟩ <;> simp [get_task, update_task, delete_task, h]

theorem missing_id_not_found_witness :
    get_task Store.empty 1 = .error .notFound
  ∧ update_task Store.empty 1 ⟨none, none, none⟩ = (.error .notFound, Store.empty) := by
  have h := missing_id_not_found Store.empty 1 ⟨none, none, none⟩ (by rfl)
  exact ⟨h.1, h.2.1⟩

/-- C2: PATCH on an existing task succeeds and applies exactly the supplied
fields — each field not supplied in the body keeps its previous value, each
supplied field takes exactly the supplied value — and the stored row under
that id is the returned task. -/
theorem update_frame_effect (s : Store) (task_id : Nat) (u : TaskUpdate)
    (t : TaskDB) (h : s.get task_id = some t) :
    ∃ t2 s2, update_task s task_id u = (.ok t2, s2)
      ∧ (u.title = none → t2.title = t.title)
      ∧ (∀ v, u.title = some v → t2.title = v)
      ∧ (u.description = none → t2.description = t.description)
      ∧ (∀ v, u.description = some v → t2.description = v)
      ∧ (u.completed = none → t2.completed = t.completed)
      ∧ (∀ v, u.completed = some v → t2.completed = v)
      ∧ s2.get task_id = some t2 := by
  have hfind : List.find? (fun x => x.id == task_id) s.tasks = some t := by
    simpa [Store.get] using h
  have hpred : (fun x : TaskDB => x.id == task_id) t = true :=
    @List.find?_some TaskDB (fun x : TaskDB => x.id == task_id) t s.tasks hfind
  have htid : t.id = task_id := by simpa using hpred
  refine ⟨applyUpdate t u,
    ⟨s.tasks.map (fun x => if x.id == task_id then applyUpdate t u else x),
      s.nextId⟩, ?_, ?_, ?_, ?_, ?_, ?_, ?_, ?_⟩
  · simp only [update_task, h]
  · intro hc; simp [applyUpdate, hc]
  · intro v hc; simp [applyUpdate, hc]
  · intro hc; simp [applyUpdate, hc]
  · intro v hc; simp [applyUpdate, hc]
  · intro hc; simp [applyUpdate, hc]
  · intro v hc; simp [applyUpdate, hc]
  · have hid2 : (applyUpdate t u).id = task_id := by
      simpa [applyUpdate] using htid
    exact find?_replace s.tasks task_id t (applyUpdate t u)
      (by simpa [Store.get] using h) hid2

theorem update_frame_effect_witness :
    ∃ t2 s2,
      update_task (create_task Store.empty ⟨"a", none, false⟩).2 1
          ⟨some "b", none, none⟩ = (.ok t2, s2)
        ∧ t2.title = "b" ∧ t2.completed = false := by
  obtain ⟨t2, s2, h1, _, h3, _, _, h6, _, _⟩ :=
    update_frame_effect (create_task Store.empty ⟨"a", none, false⟩).2 1
      ⟨some "b", none, none⟩ ⟨1, "a", none, false⟩ (by rfl)
  exact ⟨t2, s2, h1, h3 "b" rfl, h6 rfl⟩

/-- C1: every successful store mutation publishes exactly one Event of the
matching kind, carrying the mutated task's identifier and (for create,
update and import) the resulting task snapshot: the event singleton is
produced together with the mutation's result, modelling synchronous
publication before the result is returned to the caller. -/
theorem mutations_publish_exactly_one_event (s : Store) (d : TaskCreate)
    (task_id : Nat) (u : TaskUpdate) (r : Nat) (net : FetchOutcome) :
    (create_task_endpoint s d =
      ((create_task s d).1, (create_task s d).2,
        [⟨.created, (create_task s d).1.id, some (create_task s d).1⟩]))
  ∧ (∀ t s2, update_task s task_id u = (.ok t, s2) →
      update_task_endpoint s task_id u = (.ok t, s2, [⟨.updated, t.id, some t⟩]))
  ∧ (∀ s2, delete_task s task_id = (.ok (), s2) →
      delete_task_endpoint s task_id = (.ok (), s2, [⟨.deleted, task_id, none⟩]))
  ∧ (∀ t s2, create_task_from_external r net s = (.ok t, s2) →
      run_task_generator r net s = (.ok t, s2, [⟨.created, t.id, some t⟩])) := by
  refine ⟨rfl, ?_, ?_, ?_⟩
  · intro t s2 hu
    simp [update_task_endpoint, hu, publishOne]
  · intro s2 hd
    simp [delete_task_endpoint, hd, publishOne]
  · intro t s2 hi
    simp [run_task_generator, hi, publishOne]

theorem mutations_publish_exactly_one_event_witness :
    update_task_endpoint (create_task Store.empty ⟨"a", none, false⟩).2 1
        ⟨none, none, some true⟩ =
      (.ok ⟨1, "a", none, true⟩, ⟨[⟨1, "a", none, true⟩], 2⟩,
        [⟨.updated, 1, some ⟨1, "a", none, true⟩⟩]) := by
  have h := (mutations_publish_exactly_one_event
      (create_task Store.empty ⟨"a", none, false⟩).2 ⟨"a", none, false⟩ 1
      ⟨none, none, some true⟩ 0 .networkError).2.1
  exact h ⟨1, "a", none, true⟩ ⟨[⟨1, "a", none, true⟩], 2⟩ (by rfl)

/-- C3: importing a payload that carries title, completed and id produces a
task with the title copied verbatim, the provenance description
"Imported from JSONPlaceholder, remote_id=<id>" built from the remote id,
and the completed flag copied verbatim; the task is written through the
store (the new state resolves its id to it), a single `created` Event
carrying it is published, and it is returned. -/
theorem import_maps_record_verbatim (r : Nat) (s : Store)
    (p : ExternalPayload) (ti : String) (c : Bool) (rid : Nat)
    (hWF : Store.WF s) (hti : p.title = some ti) (hc : p.completed = some c)
    (hrid : p.id = some rid) :
    ∃ t s2,
      run_task_generator r (.success p) s = (.ok t, s2, [⟨.created, t.id, some t⟩])
      ∧ t.title = ti
      ∧ t.description =
          some ("Imported from JSONPlaceholder, remote_id=" ++ toString rid)
      ∧ t.completed = c
      ∧ s2.get t.id = some t := by
  refine ⟨⟨s.nextId, ti,
      some ("Imported from JSONPlaceholder, remote_id=" ++ toString rid), c⟩,
    ⟨s.tasks ++ [⟨s.nextId, ti,
      some ("Imported from JSONPlaceholder, remote_id=" ++ toString rid), c⟩],
      s.nextId + 1⟩, ?_, rfl, rfl, rfl, ?_⟩
  · simp [run_task_generator, create_task_from_external, fetch_external_todo,
      hti, hc, hrid, Store.createTask, publishOne, remoteIdText]
  · exact find?_append_fresh s.tasks s.nextId _ hWF rfl

theorem import_maps_record_verbatim_witness :
    ∃ t s2,
      run_task_generator 0 (.success ⟨some "x", some true, some 7⟩) Store.empty
        = (.ok t, s2, [⟨.created, t.id, some t⟩])
      ∧ t.title = "x"
      ∧ t.description = some "Imported from JSONPlaceholder, remote_id=7"
      ∧ t.completed = true := by
  obtain ⟨t, s2, h1, h2, h3, h4, _⟩ :=
    import_maps_record_verbatim 0 Store.empty ⟨some "x", some true, some 7⟩
      "x" true 7 (by intro t ht; cases ht) rfl rfl rfl
  exact ⟨t, s2, h1, h2, h3, h4⟩

/-- C4: when the external fetch fails, the import returns that UpstreamError
with the store unchanged and no event published; and every import attempt is
atomic — either it returns a created task together with its single `created`
Event, or it returns an UpstreamError with the store unchanged and no
event. -/
theorem import_failure_atomic (r : Nat) (net : FetchOutcome) (s : Store) :
    (∀ e, (fetch_external_todo r net).2 = .error e →
        run_task_generator r net s = (.error e, s, []))
  ∧ ((∃ t s2, run_task_generator r net s = (.ok t, s2, [⟨.created, t.id, some t⟩]))
      ∨ (∃ e, run_task_generator r net s = (.error e, s, []))) := by
  constructor
  · intro e he
    cases net with
    | success p => simp [fetch_external_todo] at he
    | networkError =>
      have : e = .network := by simpa [fetch_external_todo] using he.symm
      subst this; rfl
    | statusError =>
      have : e = .status := by simpa [fetch_external_todo] using he.symm
      subst this; rfl
  · cases net with
    | success p =>
      left
      refine ⟨⟨s.nextId, p.title.getD "Imported task",
        some ("Imported from JSONPlaceholder, remote_id=" ++ remoteIdText p.id),
        p.completed.getD false⟩,
        ⟨s.tasks ++ [⟨s.nextId, p.title.getD "Imported task",
          some ("Imported from JSONPlaceholder, remote_id=" ++ remoteIdText p.id),
          p.completed.getD false⟩], s.nextId + 1⟩, ?_⟩
      rfl
    | networkError => right; exact ⟨.network, rfl⟩
    | statusError => right; exact ⟨.status, rfl⟩

theorem import_failure_atomic_witness :
    run_task_generator 0 .networkError Store.empty =
      (.error .network, Store.empty, []) :=
  (import_failure_atomic 0 .networkError Store.empty).1 .network rfl

/-- C5: the background loop executes every supplied cycle — its trace has
one entry per cycle, so a failing cycle never stops the loop — and every
trace entry records a sleep of the default period, 60 time-units. When the
first cycle's fetch fails, the failure is recorded as the error log line
(with its 60-unit sleep) and the remaining cycles proceed on the unchanged
store; the error is turned into a log entry, never re-raised. -/
theorem scheduler_failure_contained (s : Store)
    (cycles rest : List (Nat × FetchOutcome)) (r : Nat) (net : FetchOutcome)
    (e : UpstreamError) (he : (fetch_external_todo r net).2 = .error e) :
    ((background_task_generator cycles s).2.length = cycles.length)
  ∧ (∀ q ∈ (background_task_generator cycles s).2, q.2 = 60)
  ∧ ((background_task_generator ((r, net) :: rest) s).2 =
      ("[background] Error while importing task: " ++ upstreamErrorMessage e, 60)
        :: (background_task_generator rest s).2) := by
  refine ⟨bg_trace_length cycles s 60, bg_trace_sleep cycles s 60, ?_⟩
  have hctfe : create_task_from_external r net s = (.error e, s) := by
    simp [create_task_from_external, he]
  simp [background_task_generator, background_cycle, hctfe]

theorem scheduler_failure_contained_witness :
    (background_task_generator [(0, FetchOutcome.networkError)] Store.empty).2 =
      [("[background] Error while importing task: network error", 60)] := by
  have h := (scheduler_failure_contained Store.empty [] [] 0
      .networkError .network rfl).2.2
  simpa [background_task_generator] using h

/-- C6: every invocation of the fetch issues the HTTP GET for a
uniform-randomly selected id lying in the catalog range [1, 200], with the
fixed 10-unit client timeout; and the selection reaches every id of the
range (each id in [1, 200] is chosen by some draw below 200, one draw per
id in each window of 200 draws). -/
theorem fetch_id_in_range_fixed_timeout (r : Nat) (net : FetchOutcome) :
    (1 ≤ (fetch_external_todo r net).1.todo_id
      ∧ (fetch_external_todo r net).1.todo_id ≤ 200)
  ∧ (fetch_external_todo r net).1.timeout = 10
  ∧ (∀ k, 1 ≤ k → k ≤ 200 → ∃ r2, r2 < 200 ∧ chosen_todo_id r2 = k) := by
  refine ⟨⟨?_, ?_⟩, rfl, ?_⟩
  · simp [fetch_external_todo, chosen_todo_id, randint]
  · show chosen_todo_id r ≤ 200
    simp only [chosen_todo_id, randint]
    omega
  · intro k h1 h2
    refine ⟨k - 1, by omega, ?_⟩
    simp only [chosen_todo_id, randint]
    omega

theorem fetch_id_in_range_fixed_timeout_witness :
    ∃ r2, r2 < 200 ∧ chosen_todo_id r2 = 200 :=
  (fetch_id_in_range_fixed_timeout 0 .networkError).2.2 200 (by decide) (by decide)

/-- C7 counterexample: a syntactically valid JSON payload missing both the
required `title` text and the `completed` boolean is NOT rejected with
UpstreamError — the import succeeds and stores a task built from defaults,
refuting the claim that a malformed payload yields UpstreamError and that
no Task is imported from it. -/
theorem malformed_payload_imported_cex :
    (create_task_from_external 0 (.success ⟨none, none, none⟩) Store.empty).1 =
      .ok ⟨1, "Imported task",
        some "Imported from JSONPlaceholder, remote_id=None", false⟩
  ∧ (create_task_from_external 0 (.success ⟨none, none, none⟩) Store.empty).2.tasks =
      [⟨1, "Imported task",
        some "Imported from JSONPlaceholder, remote_id=None", false⟩] :=
  ⟨rfl, rfl⟩

/-- C7 amended: the fetch fails with UpstreamError in exactly two situations
— network failure (including timeout) or non-success HTTP status. A payload
missing the `title` or `completed` field is not treated as an error: it is
still imported, defaulting a missing title to "Imported task" and a
missing completed flag to false. -/
theorem fetch_error_cases_amended (r : Nat) (net : FetchOutcome) (s : Store) :
    ((∃ e, (fetch_external_todo r net).2 = .error e) ↔
      (net = .networkError ∨ net = .statusError))
  ∧ (∀ p, net = .success p →
      ∃ t s2, create_task_from_external r net s = (.ok t, s2)
        ∧ t.title = p.title.getD "Imported task"
        ∧ t.completed = p.completed.getD false) := by
  constructor
  · constructor
    · rintro ⟨e, he⟩
      cases net with
      | success p => simp [fetch_external_todo] at he
      | networkError => exact Or.inl rfl
      | statusError => exact Or.inr rfl
    · rintro (h | h) <;> subst h
      · exact ⟨.network, rfl⟩
      · exact ⟨.status, rfl⟩
  · rintro p rfl
    refine ⟨⟨s.nextId, p.title.getD "Imported task",
      some ("Imported from JSONPlaceholder, remote_id=" ++ remoteIdText p.id),
      p.completed.getD false⟩,
      ⟨s.tasks ++ [⟨s.nextId, p.title.getD "Imported task",
        some ("Imported from JSONPlaceholder, remote_id=" ++ remoteIdText p.id),
        p.completed.getD false⟩], s.nextId + 1⟩, ?_, rfl, rfl⟩
    rfl

theorem fetch_error_cases_amended_witness :
    ∃ t s2,
      create_task_from_external 1 (.success ⟨some "x", some true, some 9⟩)
        Store.empty = (.ok t, s2) ∧ t.title = "x" ∧ t.completed = true := by
  obtain ⟨t, s2, h1, h2, h3⟩ :=
    (fetch_error_cases_amended 1 (.success ⟨some "x", some true, some 9⟩)
      Store.empty).2 ⟨some "x", some true, some 9⟩ rfl
  exact ⟨t, s2, h1, by simpa using h2, by simpa using h3⟩

/-- C9 counterexample: POST /tasks accepts an empty title — no validation
rejects it — so a task whose title is the empty string is created and
stored, refuting the claim that no operation can store a task with an empty
title. -/
theorem empty_title_stored_cex :
    (create_task Store.empty ⟨"", none, false⟩).1.title = ""
  ∧ (create_task Store.empty ⟨"", none, false⟩).2.get 1 =
      some ⟨1, "", none, false⟩ :=
  ⟨rfl, rfl⟩

/-- C9 amended: the title of a created task is stored verbatim as supplied,
with no non-emptiness validation — the created task carries exactly the
supplied title (empty or not) and is among the stored rows. -/
theorem title_stored_verbatim_amended (s : Store) (d : TaskCreate) :
    (create_task s d).1.title = d.title
  ∧ (create_task s d).1 ∈ (create_task s d).2.tasks :=
  ⟨rfl, by simp [create_task, Store.createTask]⟩
